import Mathlib

/-!
Shallow embedding of `src/observer_pattern.py`: the observer dispatcher
(`Subject.attach` / `Subject.detach` / `Subject.notify`) and the entity
registry (`UserService.create_user` / `update_user` / `delete_user` /
`get_user` / `get_all_users`), together with the membership-checking
attach endpoint (`attach_observer`).

Modelling conventions:
  * Subscriber handles are `Nat` identities (Python observer objects are
    compared by identity, which `Nat` equality models).
  * A user record (`Dict` with keys `id`, `name`, `email`, `created_at`)
    is the structure `User`; the partial-update dictionary built by the
    PUT endpoint (keys a subset of `name`, `email`, line 179) is
    `UserUpdate` with one `Option` field per possibly-present key.
  * `self.users : Dict[int, Dict]` is an insertion-ordered association
    list (Python dicts preserve insertion order); `dictLookup`,
    `dictSet`, `dictRemove` embed `d[k]`, `d[k] = v` and `d.pop(k)`.
  * Timestamps (`datetime.now().isoformat()`) are opaque strings passed
    in as a `now` parameter.
  * A possibly-raising observer is modelled by a behaviour function
    `raises : Nat → Event → Bool`; `raises o ev = true` means that
    observer `o`'s `update` coroutine raises on event `ev`.  All four
    concrete observers of the source (email / logging / slack /
    analytics) only print and never raise, which `noFail` models.
  * `raise HTTPException(...)` and a propagating observer exception are
    the `Except` error branch carrying an `SvcError`.
-/

/-- A user record: `{"id": ..., "name": ..., "email": ..., "created_at": ...}`
(observer_pattern.py lines 75-80). -/
structure User where
  id : Nat
  name : String
  email : String
  created_at : String
deriving DecidableEq, Repr

/-- The partial-fields dictionary accepted by `update_user`: the PUT
endpoint (line 179) builds `{k: v for k, v in user.dict().items() if v is not None}`
from `UserUpdate(name, email)`, so each of `name`, `email` is present or absent. -/
structure UserUpdate where
  name : Option String
  email : Option String
deriving DecidableEq, Repr

/-- Payload dictionary of each `notify` call (lines 85-89, 101-106, 117-121). -/
inductive EventPayload where
  | created (user_id : Nat) (user_data : User) (timestamp : String)
  | updated (user_id : Nat) (old_data : User) (new_data : User) (timestamp : String)
  | deleted (user_id : Nat) (deleted_user : User) (timestamp : String)
deriving DecidableEq, Repr

/-- Argument pair of `Subject.notify(event_type, data)` (line 28). -/
structure Event where
  event_type : String
  data : EventPayload
deriving DecidableEq, Repr

/-- Errors surfaced by the service: `HTTPException(status_code, detail)`,
a `ValueError` from `list.remove`, and a propagated observer exception. -/
inductive SvcError where
  | httpError (status : Nat) (detail : String)
  | valueError
  | observerError
deriving DecidableEq, Repr

/-- `self.users[key]` read: first entry with the key (Python dict keys are
unique, so first-match lookup agrees with dict lookup). -/
def dictLookup : List (Nat × User) → Nat → Option User
  | [], _ => none
  | (k, v) :: rest, key => if k = key then some v else dictLookup rest key

/-- `self.users[key] = v`: overwrite in place when the key is present,
otherwise append (Python dict assignment keeps the key's position). -/
def dictSet : List (Nat × User) → Nat → User → List (Nat × User)
  | [], key, v => [(key, v)]
  | (k, w) :: rest, key, v =>
    if k = key then (key, v) :: rest else (k, w) :: dictSet rest key v

/-- `self.users.pop(key)`: drop the entry with the key, keeping the others
in order. -/
def dictRemove : List (Nat × User) → Nat → List (Nat × User)
  | [], _ => []
  | (k, w) :: rest, key =>
    if k = key then rest else (k, w) :: dictRemove rest key

/-- `dict.update(user_data)` (line 98) for a `user_data` built by the PUT
endpoint: each key present in `user_data` overwrites the stored field,
absent keys leave the stored field untouched. -/
def applyUpdate (u : User) (d : UserUpdate) : User :=
  { u with name := d.name.getD u.name, email := d.email.getD u.email }

/-- Combined state of the `UserService` instance: `Subject._observers`
(line 20), `self.users` and `self.next_id` (lines 68-69). -/
structure ServiceState where
  observers : List Nat
  users : List (Nat × User)
  next_id : Nat
deriving DecidableEq, Repr

/-- `UserService.__init__`: no observers, empty user map, `next_id = 1`. -/
def initState : ServiceState :=
  ⟨[], [], 1⟩

/-- `Subject.attach` (lines 22-23): unconditionally append the handle. -/
def attach (st : ServiceState) (o : Nat) : ServiceState :=
  { st with observers := st.observers ++ [o] }

/-- `Subject.detach` (lines 25-26): `list.remove` drops the first
occurrence of the handle and raises `ValueError` when it is absent. -/
def detach (st : ServiceState) (o : Nat) : ServiceState × Except SvcError Unit :=
  if o ∈ st.observers then
    ({ st with observers := st.observers.erase o }, Except.ok ())
  else
    (st, Except.error SvcError.valueError)

/-- `Subject.notify` loop (lines 28-30): invoke each observer's `update`
in list order; an observer that raises stops the loop and the exception
propagates.  Returns the list of invocations performed (observer paired
with the event it was handed, in order) and whether an exception escaped. -/
def notifyRun (raises : Nat → Event → Bool) (ev : Event) :
    List Nat → List (Nat × Event) × Bool
  | [] => ([], false)
  | o :: rest =>
    if raises o ev then
      ([(o, ev)], true)
    else
      let r := notifyRun raises ev rest
      ((o, ev) :: r.1, r.2)

/-- Behaviour of every concrete observer in the source: the four observer
classes (lines 33-60) only print and never raise. -/
def noFail : Nat → Event → Bool :=
  fun _ _ => false

/-- Outcome of one service call: the state afterwards, the observer
invocations performed during the call, and the returned value or the
exception that escaped the call. -/
structure OpResult (α : Type) where
  state : ServiceState
  log : List (Nat × Event)
  result : Except SvcError α

/-- `UserService.create_user` (lines 71-91): take `next_id`, increment the
counter, build and store the user record, notify `USER_CREATED`, return
the record.  An observer exception propagates out of the call, after the
store already happened. -/
def create_user (raises : Nat → Event → Bool) (st : ServiceState)
    (name email now : String) : OpResult User :=
  let user_id := st.next_id
  let user : User := ⟨user_id, name, email, now⟩
  let st1 : ServiceState :=
    { st with next_id := st.next_id + 1, users := dictSet st.users user_id user }
  let ev : Event := ⟨"USER_CREATED", EventPayload.created user_id user now⟩
  let r := notifyRun raises ev st1.observers
  ⟨st1, r.1, if r.2 then Except.error SvcError.observerError else Except.ok user⟩

/-- `UserService.update_user` (lines 93-108): 404 when the id is absent;
otherwise merge the provided fields into the stored record, notify
`USER_UPDATED` with the old and new records, return the new record. -/
def update_user (raises : Nat → Event → Bool) (st : ServiceState)
    (user_id : Nat) (user_data : UserUpdate) (now : String) : OpResult User :=
  match dictLookup st.users user_id with
  | none => ⟨st, [], Except.error (SvcError.httpError 404 "User not found")⟩
  | some old_data =>
    let new_data := applyUpdate old_data user_data
    let st1 : ServiceState := { st with users := dictSet st.users user_id new_data }
    let ev : Event := ⟨"USER_UPDATED", EventPayload.updated user_id old_data new_data now⟩
    let r := notifyRun raises ev st1.observers
    ⟨st1, r.1, if r.2 then Except.error SvcError.observerError else Except.ok new_data⟩

/-- The success value of `delete_user` (line 123):
`{"message": "User deleted successfully", "user": deleted_user}`. -/
structure DeleteResponse where
  message : String
  user : User
deriving DecidableEq, Repr

/-- `UserService.delete_user` (lines 110-123): 404 when the id is absent;
otherwise pop the record, notify `USER_DELETED`, return the message
object wrapping the popped record. -/
def delete_user (raises : Nat → Event → Bool) (st : ServiceState)
    (user_id : Nat) (now : String) : OpResult DeleteResponse :=
  match dictLookup st.users user_id with
  | none => ⟨st, [], Except.error (SvcError.httpError 404 "User not found")⟩
  | some deleted_user =>
    let st1 : ServiceState := { st with users := dictRemove st.users user_id }
    let ev : Event := ⟨"USER_DELETED", EventPayload.deleted user_id deleted_user now⟩
    let r := notifyRun raises ev st1.observers
    ⟨st1, r.1,
      if r.2 then Except.error SvcError.observerError
      else Except.ok ⟨"User deleted successfully", deleted_user⟩⟩

/-- `UserService.get_user` (lines 125-128): pure read, 404 when absent. -/
def get_user (st : ServiceState) (user_id : Nat) : Except SvcError User :=
  match dictLookup st.users user_id with
  | none => Except.error (SvcError.httpError 404 "User not found")
  | some u => Except.ok u

/-- `UserService.get_all_users` (lines 130-131): the stored records in
insertion order. -/
def get_all_users (st : ServiceState) : List User :=
  st.users.map Prod.snd

/-- The attach HTTP endpoint `attach_observer` (lines 219-237): append the
handle only when it is not already in `_observers`. -/
def attach_observer (st : ServiceState) (o : Nat) : ServiceState :=
  if o ∈ st.observers then st else attach st o

/-- One registry or dispatcher call, for reasoning about call traces. -/
inductive Op where
  | createOp (name email now : String)
  | updateOp (user_id : Nat) (user_data : UserUpdate) (now : String)
  | deleteOp (user_id : Nat) (now : String)
  | readOp (user_id : Nat)
  | listAllOp
  | attachOp (o : Nat)
  | detachOp (o : Nat)
deriving DecidableEq, Repr

/-- State reached after one call (the read-only calls return values
without touching the state). -/
def runOp (raises : Nat → Event → Bool) (st : ServiceState) : Op → ServiceState
  | Op.createOp name email now => (create_user raises st name email now).state
  | Op.updateOp user_id user_data now => (update_user raises st user_id user_data now).state
  | Op.deleteOp user_id now => (delete_user raises st user_id now).state
  | Op.readOp _ => st
  | Op.listAllOp => st
  | Op.attachOp o => attach st o
  | Op.detachOp o => (detach st o).1

/-- Identifier assigned by one call: `create_user` assigns
`user_id = self.next_id` (line 72); every other call assigns none. -/
def opAssigned (st : ServiceState) : Op → List Nat
  | Op.createOp _ _ _ => [st.next_id]
  | _ => []

/-- Identifiers assigned by `create` calls along a trace, in call order. -/
def assignedIds (raises : Nat → Event → Bool) : ServiceState → List Op → List Nat
  | _, [] => []
  | st, op :: ops => opAssigned st op ++ assignedIds raises (runOp raises st op) ops

/-! ### Helper lemmas -/

theorem dictLookup_dictSet_self (l : List (Nat × User)) (k : Nat) (v : User) :
    dictLookup (dictSet l k v) k = some v := by
  induction l with
  | nil => simp [dictSet, dictLookup]
  | cons p rest ih =>
    obtain ⟨k1, w⟩ := p
    by_cases h : k1 = k
    · simp [dictSet, dictLookup, h]
    · simp [dictSet, dictLookup, h, ih]

theorem dictSet_of_lookup_eq (l : List (Nat × User)) (k : Nat) (v : User)
    (h : dictLookup l k = some v) : dictSet l k v = l := by
  induction l with
  | nil => simp [dictLookup] at h
  | cons p rest ih =>
    obtain ⟨k1, w⟩ := p
    by_cases hk : k1 = k
    · subst hk
      simp [dictLookup] at h
      simp [dictSet, h]
    · simp [dictLookup, hk] at h
      simp [dictSet, hk, ih h]

theorem dictLookup_eq_none_of_not_mem (l : List (Nat × User)) (k : Nat)
    (h : k ∉ l.map Prod.fst) : dictLookup l k = none := by
  induction l with
  | nil => simp [dictLookup]
  | cons p rest ih =>
    obtain ⟨k1, w⟩ := p
    simp only [List.map_cons, List.mem_cons] at h
    push_neg at h
    have hk : ¬ k1 = k := fun he => h.1 he.symm
    simp [dictLookup, hk, ih h.2]

theorem dictLookup_dictRemove_self (l : List (Nat × User)) (k : Nat)
    (hnd : (l.map Prod.fst).Nodup) : dictLookup (dictRemove l k) k = none := by
  induction l with
  | nil => simp [dictRemove, dictLookup]
  | cons p rest ih =>
    obtain ⟨k1, w⟩ := p
    simp only [List.map_cons, List.nodup_cons] at hnd
    by_cases hk : k1 = k
    · subst hk
      simpa [dictRemove] using dictLookup_eq_none_of_not_mem rest k1 hnd.1
    · simp [dictRemove, hk, dictLookup, ih hnd.2]

theorem notifyRun_noRaise (raises : Nat → Event → Bool) (ev : Event)
    (l : List Nat) (h : ∀ o ∈ l, raises o ev = false) :
    notifyRun raises ev l = (l.map (fun o => (o, ev)), false) := by
  induction l with
  | nil => simp [notifyRun]
  | cons o rest ih =>
    have ho : raises o ev = false := h o (List.mem_cons_self o rest)
    have hrest : ∀ x ∈ rest, raises x ev = false :=
      fun x hx => h x (List.mem_cons_of_mem o hx)
    simp [notifyRun, ho, ih hrest]

theorem notifyRun_raise (raises : Nat → Event → Bool) (ev : Event)
    (pre : List Nat) (f : Nat) (post : List Nat)
    (hpre : ∀ o ∈ pre, raises o ev = false) (hf : raises f ev = true) :
    notifyRun raises ev (pre ++ f :: post) =
      (pre.map (fun o => (o, ev)) ++ [(f, ev)], true) := by
  induction pre with
  | nil => simp [notifyRun, hf]
  | cons o rest ih =>
    have ho : raises o ev = false := hpre o (List.mem_cons_self o rest)
    have hrest : ∀ x ∈ rest, raises x ev = false :=
      fun x hx => hpre x (List.mem_cons_of_mem o hx)
    simp [notifyRun, ho, ih hrest]

theorem map_fst_pairs (l : List Nat) (ev : Event) :
    (l.map (fun o => (o, ev))).map Prod.fst = l := by
  induction l with
  | nil => rfl
  | cons o rest ih => simp [ih]

theorem applyUpdate_empty (u : User) : applyUpdate u ⟨none, none⟩ = u := rfl

theorem notifyRun_noFail (ev : Event) (l : List Nat) :
    notifyRun noFail ev l = (l.map (fun o => (o, ev)), false) :=
  notifyRun_noRaise noFail ev l (fun _ _ => rfl)

theorem detach_fst_observers (st : ServiceState) (o : Nat) :
    (detach st o).1.observers = st.observers.erase o := by
  unfold detach
  by_cases h : o ∈ st.observers
  · simp [h]
  · simp [h, List.erase_of_not_mem h]

theorem detach_fst_next_id (st : ServiceState) (o : Nat) :
    (detach st o).1.next_id = st.next_id := by
  unfold detach
  by_cases h : o ∈ st.observers <;> simp [h]

theorem update_user_state_next_id (raises : Nat → Event → Bool) (st : ServiceState)
    (uid : Nat) (upd : UserUpdate) (now : String) :
    (update_user raises st uid upd now).state.next_id = st.next_id := by
  cases h : dictLookup st.users uid <;> simp [update_user, h]

theorem delete_user_state_next_id (raises : Nat → Event → Bool) (st : ServiceState)
    (uid : Nat) (now : String) :
    (delete_user raises st uid now).state.next_id = st.next_id := by
  cases h : dictLookup st.users uid <;> simp [delete_user, h]

theorem runOp_next_id_le (raises : Nat → Event → Bool) (st : ServiceState) (op : Op) :
    st.next_id ≤ (runOp raises st op).next_id := by
  cases op with
  | createOp nm em now => exact Nat.le_succ st.next_id
  | updateOp uid upd now => exact (update_user_state_next_id raises st uid upd now).ge
  | deleteOp uid now => exact (delete_user_state_next_id raises st uid now).ge
  | readOp uid => exact Nat.le_refl _
  | listAllOp => exact Nat.le_refl _
  | attachOp o => exact Nat.le_refl _
  | detachOp o => exact (detach_fst_next_id st o).ge

theorem assignedIds_lower (raises : Nat → Event → Bool) :
    ∀ (ops : List Op) (st : ServiceState), ∀ x ∈ assignedIds raises st ops, st.next_id ≤ x := by
  intro ops
  induction ops with
  | nil => intro st x hx; simp [assignedIds] at hx
  | cons op rest ih =>
    intro st x hx
    simp only [assignedIds, List.mem_append] at hx
    rcases hx with hx | hx
    · cases op <;> simp [opAssigned] at hx
      omega
    · exact Nat.le_trans (runOp_next_id_le raises st op) (ih (runOp raises st op) x hx)

/-- Claim C2 (counterexample): `detach` on a handle absent from the
subscriber sequence is not a silent no-op — `list.remove` raises
`ValueError` (here: on the fresh service, detaching handle 1 yields the
`ValueError` branch), contradicting the claim's "raises no error". -/
theorem C2_detach_absent_raises_counterexample :
    (detach initState 1).2 = Except.error SvcError.valueError
    ∧ (detach initState 1).1 = initState := by
  constructor <;> rfl

/-- Claim C2 (amended): `detach(h)` removes the first occurrence of `h`
from the subscriber sequence; when `h` is present the call succeeds, and
when `h` is absent the sequence is left unchanged but the call raises
`ValueError` rather than being a silent no-op. -/
theorem C2_detach_first_occurrence (st : ServiceState) (o : Nat) :
    (detach st o).1.observers = st.observers.erase o
    ∧ (o ∈ st.observers → (detach st o).2 = Except.ok ())
    ∧ (o ∉ st.observers →
        (detach st o).1 = st ∧ (detach st o).2 = Except.error SvcError.valueError) := by
  refine ⟨detach_fst_observers st o, ?_, ?_⟩ <;> intro h <;> simp [detach, h]

/-- Concrete instance of the amended C2 theorem: detaching the present
handle 5 succeeds, detaching the absent handle 7 leaves the state intact. -/
theorem C2_detach_first_occurrence_witness :
    5 ∈ (⟨[5], [], 1⟩ : ServiceState).observers
    ∧ (detach ⟨[5], [], 1⟩ 5).2 = Except.ok ()
    ∧ 7 ∉ (⟨[5], [], 1⟩ : ServiceState).observers
    ∧ (detach ⟨[5], [], 1⟩ 7).1 = ⟨[5], [], 1⟩ :=
  ⟨by decide, (C2_detach_first_occurrence ⟨[5], [], 1⟩ 5).2.1 (by decide),
   by decide, ((C2_detach_first_occurrence ⟨[5], [], 1⟩ 7).2.2 (by decide)).1⟩

/-- Claim C4: on an id absent from `self.users`, `update_user`,
`delete_user` and `get_user` all raise the 404 `HTTPException`, leave the
whole service state (hence the registry size) unchanged, and perform no
observer delivery (empty invocation log). -/
theorem C4_absent_id_not_found (raises : Nat → Event → Bool) (st : ServiceState)
    (uid : Nat) (upd : UserUpdate) (now : String)
    (h : dictLookup st.users uid = none) :
    update_user raises st uid upd now =
      ⟨st, [], Except.error (SvcError.httpError 404 "User not found")⟩
    ∧ delete_user raises st uid now =
      ⟨st, [], Except.error (SvcError.httpError 404 "User not found")⟩
    ∧ get_user st uid = Except.error (SvcError.httpError 404 "User not found") := by
  refine ⟨?_, ?_, ?_⟩ <;> simp [update_user, delete_user, get_user, h]

/-- Concrete instance of C4: id 1 is absent from the fresh service. -/
theorem C4_absent_id_not_found_witness :
    dictLookup initState.users 1 = none
    ∧ (update_user noFail initState 1 ⟨none, none⟩ "t" =
        ⟨initState, [], Except.error (SvcError.httpError 404 "User not found")⟩
      ∧ delete_user noFail initState 1 "t" =
        ⟨initState, [], Except.error (SvcError.httpError 404 "User not found")⟩
      ∧ get_user initState 1 = Except.error (SvcError.httpError 404 "User not found")) :=
  ⟨rfl, C4_absent_id_not_found noFail initState 1 ⟨none, none⟩ "t" rfl⟩

/-- Claim C9: `next_id` is modified only by `create_user` — every
`update`, `delete`, `read`, `listAll`, `attach` or `detach` call
(successful or failing) leaves it equal to its prior value, while a
`create` call increments it by one.  (`get_user` and `get_all_users` are
stateless reads in the source, which `runOp` reflects.) -/
theorem C9_next_id_only_create (raises : Nat → Event → Bool) (st : ServiceState)
    (uid : Nat) (upd : UserUpdate) (now nm em : String) (o : Nat) :
    (runOp raises st (Op.updateOp uid upd now)).next_id = st.next_id
    ∧ (runOp raises st (Op.deleteOp uid now)).next_id = st.next_id
    ∧ (runOp raises st (Op.readOp uid)).next_id = st.next_id
    ∧ (runOp raises st Op.listAllOp).next_id = st.next_id
    ∧ (runOp raises st (Op.attachOp o)).next_id = st.next_id
    ∧ (runOp raises st (Op.detachOp o)).next_id = st.next_id
    ∧ (runOp raises st (Op.createOp nm em now)).next_id = st.next_id + 1 :=
  ⟨update_user_state_next_id raises st uid upd now,
   delete_user_state_next_id raises st uid now,
   rfl, rfl, rfl, detach_fst_next_id st o, rfl⟩

theorem create_user_log (raises : Nat → Event → Bool) (st : ServiceState)
    (nm em now : String) :
    (create_user raises st nm em now).log =
      (notifyRun raises
        ⟨"USER_CREATED", EventPayload.created st.next_id ⟨st.next_id, nm, em, now⟩ now⟩
        st.observers).1 := rfl

theorem create_user_noFail_log (st : ServiceState) (nm em now : String) :
    (create_user noFail st nm em now).log =
      st.observers.map (fun o =>
        (o, (⟨"USER_CREATED",
          EventPayload.created st.next_id ⟨st.next_id, nm, em, now⟩ now⟩ : Event))) := by
  rw [create_user_log, notifyRun_noFail]

/-- Claim C8: the dispatcher's `attach` appends unconditionally (no
uniqueness check), the attach HTTP endpoint's check-then-append is
idempotent, and attaching a fresh handle twice makes one `create`
deliver its event to that handle twice. -/
theorem C8_attach_no_uniqueness (st : ServiceState) (h : Nat) (nm em now : String) :
    (attach st h).observers = st.observers ++ [h]
    ∧ attach_observer (attach_observer st h) h = attach_observer st h
    ∧ (h ∉ st.observers →
        ((create_user noFail (attach (attach st h) h) nm em now).log.map Prod.fst).count h
          = 2) := by
  refine ⟨rfl, ?_, ?_⟩
  · by_cases hm : h ∈ st.observers
    · simp [attach_observer, hm]
    · simp [attach_observer, hm, attach]
  · intro hm
    rw [create_user_noFail_log, map_fst_pairs]
    simp [attach, List.count_append, List.count_eq_zero.mpr hm]

/-- Concrete instance of C8: handle 3 is fresh on the new service,
attaching it twice makes one `create` deliver to it twice. -/
theorem C8_attach_no_uniqueness_witness :
    3 ∉ initState.observers
    ∧ ((create_user noFail (attach (attach initState 3) 3) "Ann" "ann@x.io" "t").log.map
        Prod.fst).count 3 = 2 :=
  ⟨by decide, (C8_attach_no_uniqueness initState 3 "Ann" "ann@x.io" "t").2.2 (by decide)⟩

/-- Claim C6: with the source's (never-raising) observers, `notify`
invokes every attached handle exactly once, in attachment order, and the
sequential loop finishes only after the last handle; a handle freshly
attached before a `create` receives its event exactly once, and a handle
detached before a `create` (having been attached at most once) receives
it zero times. -/
theorem C6_notify_in_attachment_order (ev : Event) (obs : List Nat) (st : ServiceState)
    (h : Nat) (nm em now : String) :
    notifyRun noFail ev obs = (obs.map (fun o => (o, ev)), false)
    ∧ (h ∉ st.observers →
        ((create_user noFail (attach st h) nm em now).log.map Prod.fst).count h = 1)
    ∧ (st.observers.count h ≤ 1 →
        ((create_user noFail (detach st h).1 nm em now).log.map Prod.fst).count h = 0) := by
  refine ⟨notifyRun_noFail ev obs, ?_, ?_⟩
  · intro hm
    rw [create_user_noFail_log, map_fst_pairs]
    simp [attach, List.count_append, List.count_eq_zero.mpr hm]
  · intro hc
    rw [create_user_noFail_log, map_fst_pairs, detach_fst_observers]
    have := List.count_erase_self h st.observers
    omega

/-- Concrete instance of C6: on the fresh service, attach then create
delivers once to handle 1; detach then create delivers zero times. -/
theorem C6_notify_in_attachment_order_witness :
    1 ∉ initState.observers
    ∧ ((create_user noFail (attach initState 1) "Ann" "ann@x.io" "t").log.map
        Prod.fst).count 1 = 1
    ∧ initState.observers.count 1 ≤ 1
    ∧ ((create_user noFail (detach initState 1).1 "Ann" "ann@x.io" "t").log.map
        Prod.fst).count 1 = 0 :=
  ⟨by decide,
   (C6_notify_in_attachment_order ⟨"E", EventPayload.created 1 ⟨1, "A", "a", "t"⟩ "t"⟩
      [] initState 1 "Ann" "ann@x.io" "t").2.1 (by decide),
   by decide,
   (C6_notify_in_attachment_order ⟨"E", EventPayload.created 1 ⟨1, "A", "a", "t"⟩ "t"⟩
      [] initState 1 "Ann" "ann@x.io" "t").2.2 (by decide)⟩

/-- Claim C5: `update_user` on a present id is a merge, not a replace —
for every partial-fields map, each field present in the map overwrites
the stored field, each absent field is left untouched, and `id` and
`created_at` are never touched; the merged record is both stored and
returned.  The claim's instance `update(id, {name: "X"})` is the case
`user_data = ⟨some "X", none⟩`. -/
theorem C5_update_is_merge (st : ServiceState) (uid : Nat) (u : User)
    (user_data : UserUpdate) (now : String) (h : dictLookup st.users uid = some u) :
    (update_user noFail st uid user_data now).result =
      Except.ok ⟨u.id, user_data.name.getD u.name, user_data.email.getD u.email,
        u.created_at⟩
    ∧ dictLookup (update_user noFail st uid user_data now).state.users uid =
        some ⟨u.id, user_data.name.getD u.name, user_data.email.getD u.email,
          u.created_at⟩ := by
  obtain ⟨i, n, em0, c⟩ := u
  obtain ⟨un, ue⟩ := user_data
  refine ⟨?_, ?_⟩ <;>
    simp [update_user, h, applyUpdate, notifyRun_noFail, dictLookup_dictSet_self]

/-- Concrete instance of C5 on a one-user registry, with both fields
present in the partial-fields map: `name` and `email` are overwritten,
`id` and `created_at` are byte-identical to before. -/
theorem C5_update_is_merge_witness :
    dictLookup [(1, ⟨1, "Ann", "ann@x.io", "t0"⟩)] 1 = some ⟨1, "Ann", "ann@x.io", "t0"⟩
    ∧ ((update_user noFail ⟨[], [(1, ⟨1, "Ann", "ann@x.io", "t0"⟩)], 2⟩ 1
          ⟨some "X", some "a@x.io"⟩ "t1").result = Except.ok ⟨1, "X", "a@x.io", "t0"⟩
      ∧ dictLookup (update_user noFail ⟨[], [(1, ⟨1, "Ann", "ann@x.io", "t0"⟩)], 2⟩ 1
          ⟨some "X", some "a@x.io"⟩ "t1").state.users 1 = some ⟨1, "X", "a@x.io", "t0"⟩) :=
  ⟨rfl, C5_update_is_merge ⟨[], [(1, ⟨1, "Ann", "ann@x.io", "t0"⟩)], 2⟩ 1
    ⟨1, "Ann", "ann@x.io", "t0"⟩ ⟨some "X", some "a@x.io"⟩ "t1" rfl⟩

/-- Claim C10: `update_user` with the empty partial-fields map on a
present id succeeds, leaves the whole service state unchanged, returns
the unchanged record, and still performs one `USER_UPDATED` fan-out whose
`old_data` and `new_data` entries are equal. -/
theorem C10_empty_update_noop (st : ServiceState) (uid : Nat) (u : User) (now : String)
    (h : dictLookup st.users uid = some u) :
    (update_user noFail st uid ⟨none, none⟩ now).result = Except.ok u
    ∧ (update_user noFail st uid ⟨none, none⟩ now).state = st
    ∧ (update_user noFail st uid ⟨none, none⟩ now).log =
        st.observers.map (fun o =>
          (o, ⟨"USER_UPDATED", EventPayload.updated uid u u now⟩)) := by
  refine ⟨?_, ?_, ?_⟩ <;>
    simp [update_user, h, applyUpdate_empty, notifyRun_noFail,
      dictSet_of_lookup_eq st.users uid u h]

/-- Concrete instance of C10 on a one-user registry with one observer. -/
theorem C10_empty_update_noop_witness :
    dictLookup [(1, ⟨1, "Ann", "ann@x.io", "t0"⟩)] 1 = some ⟨1, "Ann", "ann@x.io", "t0"⟩
    ∧ ((update_user noFail ⟨[7], [(1, ⟨1, "Ann", "ann@x.io", "t0"⟩)], 2⟩ 1
          ⟨none, none⟩ "t1").result = Except.ok ⟨1, "Ann", "ann@x.io", "t0"⟩
      ∧ (update_user noFail ⟨[7], [(1, ⟨1, "Ann", "ann@x.io", "t0"⟩)], 2⟩ 1
          ⟨none, none⟩ "t1").state = ⟨[7], [(1, ⟨1, "Ann", "ann@x.io", "t0"⟩)], 2⟩
      ∧ (update_user noFail ⟨[7], [(1, ⟨1, "Ann", "ann@x.io", "t0"⟩)], 2⟩ 1
          ⟨none, none⟩ "t1").log =
          ([7] : List Nat).map (fun o =>
            (o, ⟨"USER_UPDATED",
              EventPayload.updated 1 ⟨1, "Ann", "ann@x.io", "t0"⟩
                ⟨1, "Ann", "ann@x.io", "t0"⟩ "t1"⟩))) :=
  ⟨rfl, C10_empty_update_noop ⟨[7], [(1, ⟨1, "Ann", "ann@x.io", "t0"⟩)], 2⟩ 1
    ⟨1, "Ann", "ann@x.io", "t0"⟩ "t1" rfl⟩

/-- Modelled from the spec's words for comparison (§4.2 "returns the
removed snapshot"): the value the spec says `delete` hands back is the
bare pre-delete `User` record itself. -/
def deleteReturnsSnapshotSpec (st : ServiceState) (user_id : Nat) : Option User :=
  dictLookup st.users user_id

/-- Claim C7 (counterexample): deleting the present id 1 returns the
`{"message": "User deleted successfully", "user": snapshot}` wrapper of
line 123, not the bare pre-delete record the claim (and the spec
rendering `deleteReturnsSnapshotSpec`) describes — the caller-visible
value carries an extra constant `message` field around the snapshot. -/
theorem C7_delete_wrapper_counterexample :
    (delete_user noFail ⟨[], [(1, ⟨1, "Ann", "ann@x.io", "t0"⟩)], 2⟩ 1 "t1").result =
      Except.ok ⟨"User deleted successfully", ⟨1, "Ann", "ann@x.io", "t0"⟩⟩
    ∧ deleteReturnsSnapshotSpec ⟨[], [(1, ⟨1, "Ann", "ann@x.io", "t0"⟩)], 2⟩ 1 =
      some ⟨1, "Ann", "ann@x.io", "t0"⟩
    ∧ (delete_user noFail ⟨[], [(1, ⟨1, "Ann", "ann@x.io", "t0"⟩)], 2⟩ 1 "t1").result.map
        DeleteResponse.message = Except.ok "User deleted successfully" := by
  refine ⟨rfl, rfl, rfl⟩

/-- Claim C7 (amended): on a present id, `delete_user` removes the record
from the registry, fans out one `USER_DELETED` event carrying the
pre-delete snapshot, a subsequent read of the id fails with the 404
`HTTPException`, and the call returns a confirmation object whose `user`
field (not the return value itself) is the pre-delete snapshot. -/
theorem C7_delete_removes_and_reports (st : ServiceState) (uid : Nat) (u : User)
    (now : String) (h : dictLookup st.users uid = some u)
    (hnd : (st.users.map Prod.fst).Nodup) :
    (delete_user noFail st uid now).result =
      Except.ok ⟨"User deleted successfully", u⟩
    ∧ dictLookup (delete_user noFail st uid now).state.users uid = none
    ∧ get_user (delete_user noFail st uid now).state uid =
        Except.error (SvcError.httpError 404 "User not found")
    ∧ (delete_user noFail st uid now).log =
        st.observers.map (fun o =>
          (o, ⟨"USER_DELETED", EventPayload.deleted uid u now⟩)) := by
  have hrem := dictLookup_dictRemove_self st.users uid hnd
  refine ⟨?_, ?_, ?_, ?_⟩ <;>
    simp [delete_user, get_user, h, notifyRun_noFail, hrem]

/-- Concrete instance of the amended C7 theorem on a one-user registry
with one observer. -/
theorem C7_delete_removes_and_reports_witness :
    dictLookup [(1, ⟨1, "Ann", "ann@x.io", "t0"⟩)] 1 = some ⟨1, "Ann", "ann@x.io", "t0"⟩
    ∧ (([(1, ⟨1, "Ann", "ann@x.io", "t0"⟩)] : List (Nat × User)).map Prod.fst).Nodup
    ∧ ((delete_user noFail ⟨[7], [(1, ⟨1, "Ann", "ann@x.io", "t0"⟩)], 2⟩ 1 "t1").result =
        Except.ok ⟨"User deleted successfully", ⟨1, "Ann", "ann@x.io", "t0"⟩⟩
      ∧ dictLookup (delete_user noFail ⟨[7], [(1, ⟨1, "Ann", "ann@x.io", "t0"⟩)], 2⟩
          1 "t1").state.users 1 = none
      ∧ get_user (delete_user noFail ⟨[7], [(1, ⟨1, "Ann", "ann@x.io", "t0"⟩)], 2⟩
          1 "t1").state 1 = Except.error (SvcError.httpError 404 "User not found")
      ∧ (delete_user noFail ⟨[7], [(1, ⟨1, "Ann", "ann@x.io", "t0"⟩)], 2⟩ 1 "t1").log =
          ([7] : List Nat).map (fun o =>
            (o, ⟨"USER_DELETED",
              EventPayload.deleted 1 ⟨1, "Ann", "ann@x.io", "t0"⟩ "t1"⟩))) :=
  ⟨rfl, by decide,
   C7_delete_removes_and_reports ⟨[7], [(1, ⟨1, "Ann", "ann@x.io", "t0"⟩)], 2⟩ 1
     ⟨1, "Ann", "ann@x.io", "t0"⟩ "t1" rfl (by decide)⟩

/-- An observer behaviour in which handle 1 always raises and every other
handle succeeds (an arbitrary faulty subscriber for the C1 scenario). -/
def raisesOn1 : Nat → Event → Bool :=
  fun o _ => o == 1

/-- Claim C1 (counterexample): with handles 1 and 2 attached in that
order and handle 1 raising, `create_user` invokes only handle 1 — the
subsequently attached handle 2 receives nothing — and the create call
itself raises instead of reporting success, contradicting the claimed
isolate-and-continue policy (the `notify` loop of lines 28-30 has no
exception handling). -/
theorem C1_failure_not_isolated_counterexample :
    ((create_user raisesOn1 ⟨[1, 2], [], 1⟩ "Ann" "ann@x.io" "t0").log.map Prod.fst = [1])
    ∧ (create_user raisesOn1 ⟨[1, 2], [], 1⟩ "Ann" "ann@x.io" "t0").result =
        Except.error SvcError.observerError := by
  constructor <;> rfl

/-- Claim C1 (amended): when an attached subscriber raises during the
fan-out of any mutation — `create`, `update` or `delete` — with every
subscriber attached before it succeeding, delivery stops at the raising
subscriber (subscribers attached after it are not invoked), the
exception propagates to the registry's caller so the mutation call
fails, and the entity-map mutation itself has already been applied and
is retained (the created user is stored, the merged update is stored,
the deleted user is gone). -/
theorem C1_failure_propagates (raises : Nat → Event → Bool) (st : ServiceState)
    (nm em now : String) (uid : Nat) (user_data : UserUpdate) (u : User)
    (pre : List Nat) (f : Nat) (post : List Nat)
    (hobs : st.observers = pre ++ f :: post)
    (hpre : ∀ o ∈ pre, ∀ ev, raises o ev = false)
    (hf : ∀ ev, raises f ev = true)
    (hlookup : dictLookup st.users uid = some u)
    (hnd : (st.users.map Prod.fst).Nodup) :
    ((create_user raises st nm em now).log =
      pre.map (fun o =>
        (o, ⟨"USER_CREATED", EventPayload.created st.next_id ⟨st.next_id, nm, em, now⟩ now⟩))
      ++ [(f, ⟨"USER_CREATED", EventPayload.created st.next_id ⟨st.next_id, nm, em, now⟩ now⟩)]
    ∧ (create_user raises st nm em now).result = Except.error SvcError.observerError
    ∧ dictLookup (create_user raises st nm em now).state.users st.next_id =
        some ⟨st.next_id, nm, em, now⟩)
    ∧ ((update_user raises st uid user_data now).log =
      pre.map (fun o =>
        (o, ⟨"USER_UPDATED", EventPayload.updated uid u (applyUpdate u user_data) now⟩))
      ++ [(f, ⟨"USER_UPDATED", EventPayload.updated uid u (applyUpdate u user_data) now⟩)]
    ∧ (update_user raises st uid user_data now).result = Except.error SvcError.observerError
    ∧ dictLookup (update_user raises st uid user_data now).state.users uid =
        some (applyUpdate u user_data))
    ∧ ((delete_user raises st uid now).log =
      pre.map (fun o => (o, ⟨"USER_DELETED", EventPayload.deleted uid u now⟩))
      ++ [(f, ⟨"USER_DELETED", EventPayload.deleted uid u now⟩)]
    ∧ (delete_user raises st uid now).result = Except.error SvcError.observerError
    ∧ dictLookup (delete_user raises st uid now).state.users uid = none) := by
  have hrun : ∀ ev : Event, notifyRun raises ev (pre ++ f :: post) =
      (pre.map (fun o => (o, ev)) ++ [(f, ev)], true) :=
    fun ev => notifyRun_raise raises ev pre f post (fun o ho => hpre o ho ev) (hf ev)
  refine ⟨⟨?_, ?_, ?_⟩, ⟨?_, ?_, ?_⟩, ⟨?_, ?_, ?_⟩⟩ <;>
    simp [create_user, update_user, delete_user, hlookup, hobs, hrun,
      dictLookup_dictSet_self, dictLookup_dictRemove_self st.users uid hnd]

/-- Concrete instance of the amended C1 theorem: observers [0, 1, 2],
observer 1 always raises, user 7 stored; each of create, update and
delete fails with the propagated observer exception while its entity-map
mutation is retained. -/
theorem C1_failure_propagates_witness :
    ((create_user raisesOn1 ⟨[0, 1, 2], [(7, ⟨7, "Bob", "b@x.io", "t0"⟩)], 9⟩
        "Ann" "ann@x.io" "t").log =
      ([0] : List Nat).map (fun o =>
        (o, ⟨"USER_CREATED", EventPayload.created 9 ⟨9, "Ann", "ann@x.io", "t"⟩ "t"⟩))
      ++ [(1, ⟨"USER_CREATED", EventPayload.created 9 ⟨9, "Ann", "ann@x.io", "t"⟩ "t"⟩)]
    ∧ (create_user raisesOn1 ⟨[0, 1, 2], [(7, ⟨7, "Bob", "b@x.io", "t0"⟩)], 9⟩
        "Ann" "ann@x.io" "t").result = Except.error SvcError.observerError
    ∧ dictLookup (create_user raisesOn1 ⟨[0, 1, 2], [(7, ⟨7, "Bob", "b@x.io", "t0"⟩)], 9⟩
        "Ann" "ann@x.io" "t").state.users 9 = some ⟨9, "Ann", "ann@x.io", "t"⟩)
    ∧ ((update_user raisesOn1 ⟨[0, 1, 2], [(7, ⟨7, "Bob", "b@x.io", "t0"⟩)], 9⟩ 7
        ⟨some "X", none⟩ "t").log =
      ([0] : List Nat).map (fun o =>
        (o, ⟨"USER_UPDATED", EventPayload.updated 7 ⟨7, "Bob", "b@x.io", "t0"⟩
          (applyUpdate ⟨7, "Bob", "b@x.io", "t0"⟩ ⟨some "X", none⟩) "t"⟩))
      ++ [(1, ⟨"USER_UPDATED", EventPayload.updated 7 ⟨7, "Bob", "b@x.io", "t0"⟩
          (applyUpdate ⟨7, "Bob", "b@x.io", "t0"⟩ ⟨some "X", none⟩) "t"⟩)]
    ∧ (update_user raisesOn1 ⟨[0, 1, 2], [(7, ⟨7, "Bob", "b@x.io", "t0"⟩)], 9⟩ 7
        ⟨some "X", none⟩ "t").result = Except.error SvcError.observerError
    ∧ dictLookup (update_user raisesOn1 ⟨[0, 1, 2], [(7, ⟨7, "Bob", "b@x.io", "t0"⟩)], 9⟩ 7
        ⟨some "X", none⟩ "t").state.users 7 =
        some (applyUpdate ⟨7, "Bob", "b@x.io", "t0"⟩ ⟨some "X", none⟩))
    ∧ ((delete_user raisesOn1 ⟨[0, 1, 2], [(7, ⟨7, "Bob", "b@x.io", "t0"⟩)], 9⟩ 7 "t").log =
      ([0] : List Nat).map (fun o =>
        (o, ⟨"USER_DELETED", EventPayload.deleted 7 ⟨7, "Bob", "b@x.io", "t0"⟩ "t"⟩))
      ++ [(1, ⟨"USER_DELETED", EventPayload.deleted 7 ⟨7, "Bob", "b@x.io", "t0"⟩ "t"⟩)]
    ∧ (delete_user raisesOn1 ⟨[0, 1, 2], [(7, ⟨7, "Bob", "b@x.io", "t0"⟩)], 9⟩
        7 "t").result = Except.error SvcError.observerError
    ∧ dictLookup (delete_user raisesOn1 ⟨[0, 1, 2], [(7, ⟨7, "Bob", "b@x.io", "t0"⟩)], 9⟩
        7 "t").state.users 7 = none) :=
  C1_failure_propagates raisesOn1 ⟨[0, 1, 2], [(7, ⟨7, "Bob", "b@x.io", "t0"⟩)], 9⟩
    "Ann" "ann@x.io" "t" 7 ⟨some "X", none⟩ ⟨7, "Bob", "b@x.io", "t0"⟩ [0] 1 [2] rfl
    (by intro o ho ev; simp at ho; subst ho; rfl) (fun _ => rfl) rfl (by decide)

/-- Claim C3: along every trace of service calls, from any starting
state, the identifiers handed out by `create_user` are pairwise strictly
increasing in call order — hence unique and never reused, deletions in
between included. -/
theorem C3_created_ids_strictly_increasing (raises : Nat → Event → Bool)
    (st : ServiceState) (ops : List Op) :
    List.Pairwise (· < ·) (assignedIds raises st ops) := by
  induction ops generalizing st with
  | nil => simp [assignedIds]
  | cons op rest ih =>
    cases op with
    | createOp nm em now =>
      simp only [assignedIds, opAssigned, List.singleton_append]
      refine List.Pairwise.cons ?_ (ih _)
      intro x hx
      have hle := assignedIds_lower raises rest
        (runOp raises st (Op.createOp nm em now)) x hx
      have hnx : (runOp raises st (Op.createOp nm em now)).next_id = st.next_id + 1 := rfl
      omega
    | updateOp uid upd now => simpa [assignedIds, opAssigned] using ih _
    | deleteOp uid now => simpa [assignedIds, opAssigned] using ih _
    | readOp uid => simpa [assignedIds, opAssigned] using ih _
    | listAllOp => simpa [assignedIds, opAssigned] using ih _
    | attachOp o => simpa [assignedIds, opAssigned] using ih _
    | detachOp o => simpa [assignedIds, opAssigned] using ih _
